import Mathlib

/-!
# gohttpbench: configuration resolution (src/common.go)

A shallow embedding of `loadConfig`, `extractHostAndPort`, `stringSet`, `StopWatch`
and `TraceException`, and the properties of what they build.

Conventions of the embedding
* Go `int` values are `Int`: the code only compares and copies them.
* Go strings are `String`; the only index computed is that of a colon,
  an ASCII byte, so splitting at it by character or by byte is the same.
* `url.Parse` (package net/url) and the constant `MAX_REQUESTS` (declared in
  another file of the program) are parameters of `loadConfig`.
* Ending the process (`os.Exit`, `log.Fatal`) is an outcome of its own.
* Package time is a parameter (`TimeLib`), each call of `time.Now()` being given its
  reading; the call stack read by `runtime.Caller` is an explicit list of frames.
-/

namespace GoHttpBench

/-! ## Data model -/

/-- Go struct `Config` (common.go, lines 17-38). -/
structure Config where
  requests : Int
  concurrency : Int
  timelimit : Int
  method : String
  bodyFile : String
  contentType : String
  headers : List String
  cookies : List String
  gzip : Bool
  keepAlive : Bool
  basicAuthentication : String
  userAgent : String
  url : String
  host : String
  port : Int
  serverName : String
  contentSize : Int
deriving DecidableEq

/-- Value of `&Config{}`: every field holds the zero value of its type. -/
def Config.zero : Config :=
  { requests := 0, concurrency := 0, timelimit := 0, method := "", bodyFile := "",
    contentType := "", headers := [], cookies := [], gzip := false, keepAlive := false,
    basicAuthentication := "", userAgent := "", url := "", host := "", port := 0,
    serverName := "", contentSize := 0 }

/-- The two fields of `*url.URL` that the program reads. -/
structure URL where
  Scheme : String
  Host : String
deriving DecidableEq

/-- The two errors of `strconv.Atoi`: `strconv.ErrSyntax` and `strconv.ErrRange`. -/
inductive NumError where
  | ErrSyntax
  | ErrRange
deriving DecidableEq

/-- The values left by `flag.Parse()` (common.go, lines 41-63), together with the
last command-line argument, which `loadConfig` takes as the URL. -/
structure Flags where
  Verbosity : Int
  GoMaxProcs : Int
  ContinueOnError : Bool
  request : Int
  concurrency : Int
  timelimit : Int
  postFile : String
  putFile : String
  contentType : String
  headers : List String
  cookies : List String
  basicAuthentication : String
  keepAlive : Bool
  gzip : Bool
  help : Bool
  lastArg : String
deriving DecidableEq

deriving instance DecidableEq for Except

/-- How a call of `loadConfig` ends.
* `exited code`: `os.Exit(code)` after the usage text (the `-h` run); no Config exists yet.
* `fatal config e`: `log.Fatal(e)` inside `extractHostAndPort`; `config` is the Config
  as it stands when the process is ended.
* `returned config err`: the pair of results `(config *Config, err error)`, a nil
  pointer or nil error being `none`; an error is represented by its message. -/
inductive Outcome where
  | exited (code : Int)
  | fatal (config : Config) (e : NumError)
  | returned (config : Option Config) (err : Option String)
deriving DecidableEq

/-- The Config that the call has built, whether it was returned or the process was
ended by `log.Fatal` after building it. -/
def Outcome.built : Outcome → Option Config
  | Outcome.exited _ => none
  | Outcome.fatal config _ => some config
  | Outcome.returned config _ => config

/-! ## Library functions used by the code -/

/-- Loop of `strings.LastIndex(s, ":")` over the remaining characters: `i` is the index
of the next character, `acc` the index of the last colon seen so far. -/
def lastIndexFrom (c : Char) : List Char → Int → Int → Int
  | [], _, acc => acc
  | x :: xs, i, acc => lastIndexFrom c xs (i + 1) (if x = c then i else acc)

/-- Model of `strings.LastIndex(s, string(c))`: the index of the last `c`, or `-1`. -/
def lastIndex (s : String) (c : Char) : Int :=
  lastIndexFrom c s.data 0 (-1)

/-- Go slice `s[lo:hi]`. -/
def slice (s : String) (lo hi : Nat) : String :=
  String.mk ((s.data.drop lo).take (hi - lo))

/-- Go slice `s[lo:]`. -/
def sliceFrom (s : String) (lo : Nat) : String :=
  String.mk (s.data.drop lo)

/-- Width of Go `int` on the 64-bit targets (`strconv.IntSize`). -/
def intSize : Nat := 64

/-- Loop of `strconv.ParseUint(s, 10, 0)`: `n` is the value read so far. A character that
is not a decimal digit is a syntax error, a value above the largest unsigned integer a
range error, whichever is met first. -/
def parseUintFrom : List Char → Nat → Except NumError Nat
  | [], n => Except.ok n
  | c :: cs, n =>
    if c.isDigit = false then Except.error NumError.ErrSyntax
    else
      let n1 := n * 10 + (c.toNat - 48)
      if n1 > 2 ^ intSize - 1 then Except.error NumError.ErrRange
      else parseUintFrom cs n1

/-- Model of `strconv.ParseUint(s, 10, 0)`. -/
def ParseUint (s : List Char) : Except NumError Nat :=
  if s = [] then Except.error NumError.ErrSyntax else parseUintFrom s 0

/-- Model of `strconv.ParseInt(s, 10, 0)`: an optional sign, then the unsigned digits,
whose signed value must fit in `int`. -/
def ParseInt (s : String) : Except NumError Int :=
  match s.data with
  | [] => Except.error NumError.ErrSyntax
  | c :: rest =>
    let neg : Bool := c = '-'
    let digits : List Char := if c = '+' ∨ c = '-' then rest else c :: rest
    match ParseUint digits with
    | Except.error err => Except.error err
    | Except.ok un =>
      let cutoff : Nat := 2 ^ (intSize - 1)
      if neg = false ∧ un ≥ cutoff then Except.error NumError.ErrRange
      else if neg = true ∧ un > cutoff then Except.error NumError.ErrRange
      else Except.ok (if neg then - (un : Int) else (un : Int))

/-- Model of `strconv.Atoi(s)`, which is `ParseInt(s, 10, 0)` converted to `int`. -/
def Atoi (s : String) : Except NumError Int :=
  ParseInt s

/-! ## The program -/

/-- Go `extractHostAndPort` (common.go, lines 132-152); the error case is `log.Fatal(err)`. -/
def extractHostAndPort (url : URL) : Except NumError (String × Int) :=
  let hostname := url.Host
  let pos := lastIndex hostname ':'
  if pos > 0 then
    let host := slice hostname 0 pos.toNat
    match Atoi (sliceFrom hostname (pos.toNat + 1)) with
    | Except.error err => Except.error err
    | Except.ok portInt64 => Except.ok (host, portInt64)
  else
    let host := hostname
    if url.Scheme = "http" then Except.ok (host, 80)
    else if url.Scheme = "https" then Except.ok (host, 443)
    else Except.ok (host, 0)

/-- Lines 79-88 of `loadConfig`: the method and body file chosen from `*postFile` and
`*putFile`. When no branch is taken the Config is left as it was. -/
def inferMethod (config : Config) (postFile putFile : String) : Config :=
  if postFile = "" ∨ putFile = "" then { config with method := "GET" }
  else if postFile ≠ "" then { config with method := "POST", bodyFile := postFile }
  else if putFile ≠ "PUT" then { config with method := "PUT", bodyFile := putFile }
  else config

/-- Lines 90-95 of `loadConfig`: the time limit and its override of the request count. -/
def applyTimelimit (MAX_REQUESTS : Int) (config : Config) (timelimit : Int) : Config :=
  if timelimit > 0 then
    let config : Config := { config with timelimit := timelimit }
    if config.requests = (1 : Int) then { config with requests := MAX_REQUESTS } else config
  else config

/-- Lines 75-102 of `loadConfig`: the Config as filled from the flags and the last
argument, before the URL is parsed. -/
def populate (MAX_REQUESTS : Int) (f : Flags) : Config :=
  let config : Config := Config.zero
  let config := { config with requests := f.request }
  let config := { config with concurrency := f.concurrency }
  let config := inferMethod config f.postFile f.putFile
  let config := applyTimelimit MAX_REQUESTS config f.timelimit
  let config := { config with contentType := f.contentType }
  let config := { config with keepAlive := f.keepAlive }
  let config := { config with gzip := f.gzip }
  let config := { config with basicAuthentication := f.basicAuthentication }
  { config with url := f.lastArg }

/-- Lines 109-116 of `loadConfig`: the two checks, run one after the other on the
error variable `err`. -/
def validate (config : Config) (GoMaxProcs Verbosity : Int) (err : Option String) :
    Option String :=
  let err :=
    if config.requests < 1 ∨ config.concurrency < 1 ∨ config.timelimit < 0
        ∨ GoMaxProcs < 1 ∨ Verbosity < 0 then
      some "wrong number of arguments"
    else err
  if config.concurrency > config.requests then
    some "Cannot use concurrency level greater than total number of requests"
  else err

/-- Go `loadConfig` (common.go, lines 40-119), from the values left by `flag.Parse()`.
`parse` is `url.Parse` (an error being represented by its message) and `MAX_REQUESTS`
the program constant of that name. Both results are named, so every `return` hands
back the current `config` and `err`. -/
def loadConfig (parse : String → Except String URL) (MAX_REQUESTS : Int) (f : Flags) :
    Outcome :=
  if f.help then Outcome.exited 0
  else
    let config := populate MAX_REQUESTS f
    match parse config.url with
    | Except.error err => Outcome.returned (some config) (some err)
    | Except.ok URL =>
      match extractHostAndPort URL with
      | Except.error e => Outcome.fatal config e
      | Except.ok (host, port) =>
        let config := { config with host := host, port := port }
        Outcome.returned (some config) (validate config f.GoMaxProcs f.Verbosity none)

/-- Go type `stringSet` (common.go, line 121): a slice of strings. -/
abbrev stringSet := List String

/-- Go method `(f *stringSet) Set(value string) error` (common.go, lines 127-130): the new
value of `*f` and the error returned. -/
def stringSet.Set (f : stringSet) (value : String) : stringSet × Option String :=
  (f ++ [value], none)

/-- Successive calls of `Set` on one `stringSet`, one per value, in the order given (what
`flag.Parse()` does for the occurrences of a repeatable flag). -/
def stringSet.SetAll (f : stringSet) (values : List String) : stringSet :=
  values.foldl (fun acc value => (stringSet.Set acc value).1) f

/-- What the program uses of package time: the types `time.Time` and `time.Duration`,
their zero values and the method `Time.Sub`. -/
structure TimeLib where
  Time : Type
  Duration : Type
  zeroTime : Time
  zeroDuration : Duration
  Sub : Time → Time → Duration

/-- Go struct `StopWatch` (common.go, lines 154-158); the field `end` is written `end_`. -/
structure StopWatch (L : TimeLib) where
  start : L.Time
  end_ : L.Time
  Elapsed : L.Duration

/-- The zero-valued `StopWatch`. -/
def StopWatch.zero (L : TimeLib) : StopWatch L :=
  { start := L.zeroTime, end_ := L.zeroTime, Elapsed := L.zeroDuration }

/-- Go method `Start` (common.go, lines 160-162); `now` is the reading of `time.Now()`. -/
def StopWatch.Start {L : TimeLib} (s : StopWatch L) (now : L.Time) : StopWatch L :=
  { s with start := now }

/-- Go method `Stop` (common.go, lines 164-167); `now` is the reading of `time.Now()`. -/
def StopWatch.Stop {L : TimeLib} (s : StopWatch L) (now : L.Time) : StopWatch L :=
  let s : StopWatch L := { s with end_ := now }
  { s with Elapsed := L.Sub s.end_ s.start }

/-- One call on a `StopWatch`, with the clock reading it makes. -/
inductive Call (L : TimeLib) where
  | Start (now : L.Time)
  | Stop (now : L.Time)

/-- Whether the call is a `Stop`. -/
def Call.isStop {L : TimeLib} : Call L → Bool
  | Call.Start _ => false
  | Call.Stop _ => true

/-- Whether the call is a `Start`. -/
def Call.isStart {L : TimeLib} : Call L → Bool
  | Call.Start _ => true
  | Call.Stop _ => false

/-- The `StopWatch` after a sequence of calls, made in order. -/
def StopWatch.run {L : TimeLib} (s : StopWatch L) (calls : List (Call L)) : StopWatch L :=
  calls.foldl
    (fun w c =>
      match c with
      | Call.Start now => w.Start now
      | Call.Stop now => w.Stop now)
    s

/-- One entry of the call stack as `runtime.Caller` and `runtime.FuncForPC` report it:
file, line and function name. -/
structure Frame where
  file : String
  line : Int
  name : String
deriving DecidableEq

/-- Model of `runtime.Caller(skip)` inside `TraceException`: `stack` lists the frames of
the running goroutine, that of `TraceException` itself first; `none` is `ok = false`. -/
def Caller (stack : List Frame) (skip : Nat) : Option Frame :=
  stack[skip]?

/-- Loop of lines 175-182 of `TraceException`, from the value `skip` on: every frame
found appends `"\t%s:%d %s()\n"` to the buffer. The loop ends at the first `skip` with
no frame, which the length of the stack bounds. -/
def traceFrames (stack : List Frame) (skip : Nat) (buffer : String) : String :=
  match _hc : Caller stack skip with
  | none => buffer
  | some fr =>
    traceFrames stack (skip + 1)
      (buffer ++ ("\t" ++ fr.file ++ ":" ++ toString fr.line ++ " " ++ fr.name ++ "()\n"))
termination_by stack.length - skip
decreasing_by
  have hlt : skip < stack.length := by
    by_contra hge
    have hnone : Caller stack skip = none := List.getElem?_eq_none (Nat.le_of_not_lt hge)
    rw [hnone] at _hc
    cases _hc
  omega

/-- Go `TraceException` (common.go, lines 169-188): the list of texts written to
`os.Stderr`, `msg` being the failure value as `%v` prints it. -/
def TraceException (Verbosity : Int) (stack : List Frame) (msg : String) : List String :=
  if Verbosity > 1 then
    let buffer : String := ""
    let buffer := buffer ++ ("recover: " ++ msg ++ "\n")
    let buffer := traceFrames stack 1 buffer
    let buffer := buffer ++ "\n"
    [buffer]
  else if Verbosity > 0 then
    ["recover: " ++ msg ++ "\n"]
  else []

/-! ## Base-10 integers, as the specification words them -/

/-- Value of a run of decimal digits, most significant digit first. -/
def digitsValue (ds : List Char) : Nat :=
  ds.foldl (fun n c => n * 10 + (c.toNat - 48)) 0

/-- The text without its sign, if it starts with `+` or `-`. -/
def unsignedPart (s : String) : List Char :=
  match s.data with
  | [] => []
  | c :: rest => if c = '+' ∨ c = '-' then rest else c :: rest

/-- The integer that a signed run of decimal digits denotes. -/
def base10Value (s : String) : Int :=
  if s.data.head? = some '-' then - (digitsValue (unsignedPart s) : Int)
  else (digitsValue (unsignedPart s) : Int)

/-- A valid base-10 integer, as the specification uses the words for a port that can be
parsed: an optional sign, then one or more decimal digits, denoting a value that the Go
type `int` holds. -/
def validBase10Int (s : String) : Prop :=
  unsignedPart s ≠ [] ∧ (∀ c ∈ unsignedPart s, c.isDigit = true)
    ∧ - (2 : Int) ^ (intSize - 1) ≤ base10Value s ∧ base10Value s ≤ (2 : Int) ^ (intSize - 1) - 1

instance (s : String) : Decidable (validBase10Int s) := by
  unfold validBase10Int
  infer_instance

/-! ## Worked inputs -/

/-- Results of `url.Parse` on the URLs of the worked inputs; any other string is
reported as malformed. -/
def parseSample (s : String) : Except String URL :=
  if s = "http://example.com/" then Except.ok { Scheme := "http", Host := "example.com" }
  else if s = "https://example.com:8443/x" then
    Except.ok { Scheme := "https", Host := "example.com:8443" }
  else if s = "http://[::1]/" then Except.ok { Scheme := "http", Host := "[::1]" }
  else Except.error "parse: malformed URL"

/-- The flag defaults of lines 41-61 (with `-G 4`) and the URL `http://example.com/`. -/
def defaultFlags : Flags :=
  { Verbosity := 0, GoMaxProcs := 4, ContinueOnError := false, request := 1,
    concurrency := 1, timelimit := 0, postFile := "", putFile := "",
    contentType := "text/plain", headers := [], cookies := [], basicAuthentication := "",
    keepAlive := false, gzip := false, help := false, lastArg := "http://example.com/" }

/-- Run `-p body.txt http://example.com/`. -/
def postOnlyFlags : Flags := { defaultFlags with postFile := "body.txt" }

/-- Run `-u body.txt http://example.com/`. -/
def putOnlyFlags : Flags := { defaultFlags with putFile := "body.txt" }

/-- Run `-p post.txt -u put.txt http://example.com/`. -/
def bothFilesFlags : Flags := { defaultFlags with postFile := "post.txt", putFile := "put.txt" }

/-- Run `-t 30 http://example.com/`, with `-n` left at 1. -/
def timedFlags : Flags := { defaultFlags with timelimit := 30 }

/-- Run `-c 10 -n 5 http://example.com/`. -/
def overLimitFlags : Flags := { defaultFlags with request := 5, concurrency := 10 }

/-- Run `-c 10 -n 5 http://[::1]/`: the URL parses, its authority is `[::1]`. -/
def bracketHostFlags : Flags :=
  { defaultFlags with request := 5, concurrency := 10, lastArg := "http://[::1]/" }

/-- Run `-t -5 http://example.com/`. -/
def negativeTimeFlags : Flags := { defaultFlags with timelimit := -5 }

/-- Run with `::bad` as last argument, which `parseSample` reports as malformed. -/
def badURLFlags : Flags := { defaultFlags with lastArg := "::bad" }

/-- The Config returned on `defaultFlags`: one GET request to `example.com`, port 80. -/
def defaultPlan : Config :=
  { Config.zero with
      requests := 1, concurrency := 1, method := "GET", contentType := "text/plain",
      url := "http://example.com/", host := "example.com", port := 80 }

/-- The Config built on `overLimitFlags`. -/
def overLimitPlan : Config := { defaultPlan with requests := 5, concurrency := 10 }

/-- The Config built on `bracketHostFlags` when the process is ended: host and port are
still unset. -/
def bracketHostPlan : Config :=
  { Config.zero with
      requests := 5, concurrency := 10, method := "GET", contentType := "text/plain",
      url := "http://[::1]/" }

/-- The Config built on `badURLFlags`: host and port are still unset. -/
def badURLPlan : Config :=
  { Config.zero with
      requests := 1, concurrency := 1, method := "GET", contentType := "text/plain",
      url := "::bad" }

/-- Run `-H "Accept-Encoding: gzip" -H "X-Test: 1" -C "Apache=1234" http://example.com/`. -/
def headerFlags : Flags :=
  { defaultFlags with
      headers := stringSet.SetAll [] ["Accept-Encoding: gzip", "X-Test: 1"],
      cookies := stringSet.SetAll [] ["Apache=1234"] }

/-- Run `-c 0 http://example.com/`: of the three rules only `concurrency >= 1` is broken. -/
def zeroConcurrencyFlags : Flags := { defaultFlags with concurrency := 0 }

/-- Run `-n 0 -c 0 http://example.com/`: `requests >= 1` and `concurrency >= 1` are
broken, `concurrency <= requests` is kept. -/
def zeroBothFlags : Flags := { defaultFlags with request := 0, concurrency := 0 }

/-- Results of `url.Parse` on further URLs: one of scheme `ftp`, one with an explicit
port above 65535. -/
def parsePorts (s : String) : Except String URL :=
  if s = "ftp://example.com/" then Except.ok { Scheme := "ftp", Host := "example.com" }
  else if s = "http://example.com:99999/" then
    Except.ok { Scheme := "http", Host := "example.com:99999" }
  else Except.error "parse: malformed URL"

/-- Run `ftp://example.com/`. -/
def ftpFlags : Flags := { defaultFlags with lastArg := "ftp://example.com/" }

/-- The Config returned on `ftpFlags`: port 0. -/
def ftpPlan : Config := { defaultPlan with url := "ftp://example.com/", port := 0 }

/-- Run `http://example.com:99999/`. -/
def bigPortFlags : Flags := { defaultFlags with lastArg := "http://example.com:99999/" }

/-- The Config returned on `bigPortFlags`: port 99999. -/
def bigPortPlan : Config := { defaultPlan with url := "http://example.com:99999/", port := 99999 }

/-- Run `http://[::1]/` with every flag at its default. -/
def bracketDefaultFlags : Flags := { defaultFlags with lastArg := "http://[::1]/" }

/-- The Config built on `bracketDefaultFlags` when the process is ended. -/
def bracketDefaultPlan : Config := { bracketHostPlan with requests := 1, concurrency := 1 }

/-- Run `-G 0 http://example.com/`. -/
def noProcsFlags : Flags := { defaultFlags with GoMaxProcs := 0 }

/-- A clock whose instants and durations are integers (nanoseconds), `Sub` being the
difference kept within the range of `time.Duration`. -/
@[reducible] def intTime : TimeLib :=
  { Time := Int, Duration := Int, zeroTime := 0, zeroDuration := 0,
    Sub := fun t u => max (- (2 : Int) ^ 63) (min ((2 : Int) ^ 63 - 1) (t - u)) }

/-- The frame of `TraceException` itself, first on the stack. -/
def ownFrame : Frame := { file := "common.go", line := 176, name := "main.TraceException" }

/-- A call chain of two frames, the caller first. -/
def sampleChain : List Frame :=
  [{ file := "gb.go", line := 42, name := "main.work" },
   { file := "gb.go", line := 10, name := "main.main" }]

/-! ## Fields of the Config after each block -/

theorem inferMethod_requests (c : Config) (p u : String) :
    (inferMethod c p u).requests = c.requests := by
  unfold inferMethod; split_ifs <;> rfl

theorem inferMethod_concurrency (c : Config) (p u : String) :
    (inferMethod c p u).concurrency = c.concurrency := by
  unfold inferMethod; split_ifs <;> rfl

theorem inferMethod_timelimit (c : Config) (p u : String) :
    (inferMethod c p u).timelimit = c.timelimit := by
  unfold inferMethod; split_ifs <;> rfl

theorem populate_requests (M : Int) (f : Flags) :
    (populate M f).requests = if 0 < f.timelimit ∧ f.request = 1 then M else f.request := by
  simp only [populate, applyTimelimit, inferMethod_requests]
  split_ifs <;> simp_all [inferMethod_requests]

theorem populate_concurrency (M : Int) (f : Flags) :
    (populate M f).concurrency = f.concurrency := by
  simp only [populate, applyTimelimit, inferMethod_requests]
  split_ifs <;> simp [inferMethod_concurrency]

theorem populate_timelimit (M : Int) (f : Flags) :
    (populate M f).timelimit = if 0 < f.timelimit then f.timelimit else 0 := by
  simp only [populate, applyTimelimit, inferMethod_requests]
  split_ifs <;> simp_all [inferMethod_timelimit, Config.zero]

theorem populate_method (M : Int) (f : Flags) :
    (populate M f).method = if f.postFile = "" ∨ f.putFile = "" then "GET" else "POST" := by
  simp only [populate, applyTimelimit, inferMethod]
  split_ifs <;> simp_all

theorem populate_bodyFile (M : Int) (f : Flags) :
    (populate M f).bodyFile = if f.postFile = "" ∨ f.putFile = "" then "" else f.postFile := by
  simp only [populate, applyTimelimit, inferMethod]
  split_ifs <;> simp_all [Config.zero]

theorem populate_url (M : Int) (f : Flags) : (populate M f).url = f.lastArg := rfl

theorem populate_host_port (M : Int) (f : Flags) :
    (populate M f).host = "" ∧ (populate M f).port = 0 := by
  simp only [populate, applyTimelimit, inferMethod]
  split_ifs <;> simp_all [Config.zero]

/-- On a run that is not the `-h` run, the Config built is the one filled from the flags,
with host and port as set by line 107 (or still unset). -/
theorem loadConfig_built (parse : String → Except String URL) (M : Int) (f : Flags)
    (hh : f.help = false) :
    ∃ host port, (loadConfig parse M f).built
      = some { populate M f with host := host, port := port } := by
  unfold loadConfig
  rw [if_neg (by simp [hh])]
  dsimp only
  split
  · exact ⟨(populate M f).host, (populate M f).port, rfl⟩
  · split
    · exact ⟨(populate M f).host, (populate M f).port, rfl⟩
    · exact ⟨_, _, rfl⟩

theorem validate_eq_none (c : Config) (G V : Int) (h : validate c G V none = none) :
    1 ≤ c.requests ∧ 1 ≤ c.concurrency ∧ 0 ≤ c.timelimit ∧ 1 ≤ G ∧ 0 ≤ V
      ∧ c.concurrency ≤ c.requests := by
  unfold validate at h
  dsimp only at h
  split_ifs at h with h1 h2
  refine ⟨?_, ?_, ?_, ?_, ?_, ?_⟩ <;> omega

theorem validate_concurrency (c : Config) (G V : Int) (e : Option String)
    (h : c.concurrency > c.requests) :
    validate c G V e
      = some "Cannot use concurrency level greater than total number of requests" := by
  unfold validate
  dsimp only
  rw [if_pos h]

/-! ## Bounds of a returned plan -/

/-- Claim C1. Whenever `loadConfig` returns a nil error, the Config it returns has
requests at least 1, concurrency at least 1, timelimit at least 0, and concurrency at
most requests. -/
theorem loadConfig_nil_error_bounds (parse : String → Except String URL) (MAX_REQUESTS : Int)
    (f : Flags) (p : Option Config)
    (h : loadConfig parse MAX_REQUESTS f = Outcome.returned p none) :
    ∃ cfg, p = some cfg ∧ 1 ≤ cfg.requests ∧ 1 ≤ cfg.concurrency ∧ 0 ≤ cfg.timelimit
      ∧ cfg.concurrency ≤ cfg.requests := by
  unfold loadConfig at h
  split at h
  · cases h
  · dsimp only at h
    split at h
    · cases h
    · split at h
      · cases h
      · simp only [Outcome.returned.injEq] at h
        obtain ⟨hp, he⟩ := h
        obtain ⟨h1, h2, h3, _, _, h6⟩ := validate_eq_none _ _ _ he
        exact ⟨_, hp.symm, h1, h2, h3, h6⟩

theorem loadConfig_nil_error_bounds_witness :
    loadConfig parseSample 50000 defaultFlags = Outcome.returned (some defaultPlan) none
    ∧ ∃ cfg, some defaultPlan = some cfg ∧ 1 ≤ cfg.requests ∧ 1 ≤ cfg.concurrency
        ∧ 0 ≤ cfg.timelimit ∧ cfg.concurrency ≤ cfg.requests :=
  ⟨by decide,
   loadConfig_nil_error_bounds parseSample 50000 defaultFlags (some defaultPlan) (by decide)⟩

/-! ## Method inference -/

/-- Claim C2, evaluated on the run `-p body.txt http://example.com/`: the Config built
has method GET and an empty bodyFile, the `-p` path being dropped (the first test of
lines 79-88 holds as soon as one of the two paths is empty). -/
theorem loadConfig_post_only_yields_GET :
    postOnlyFlags.postFile = "body.txt" ∧ postOnlyFlags.putFile = ""
    ∧ loadConfig parseSample 50000 postOnlyFlags = Outcome.returned (some defaultPlan) none
    ∧ defaultPlan.method = "GET" ∧ defaultPlan.bodyFile = "" := by
  decide

/-- Claim C3, evaluated on the run `-u body.txt http://example.com/`: the Config built
has method GET and an empty bodyFile, the `-u` path being dropped; the branch that sets
PUT comes after a test that holds whenever the `-p` path is empty. -/
theorem loadConfig_put_only_yields_GET :
    putOnlyFlags.postFile = "" ∧ putOnlyFlags.putFile = "body.txt"
    ∧ loadConfig parseSample 50000 putOnlyFlags = Outcome.returned (some defaultPlan) none
    ∧ defaultPlan.method = "GET" ∧ defaultPlan.bodyFile = "" := by
  decide

/-- Claim C4. When both the `-p` and the `-u` path are non-empty, the Config built by
`loadConfig` has method POST and the `-p` path as bodyFile, and the `-u` path has no
effect at all: any other non-empty `-u` path gives the same outcome. -/
theorem loadConfig_both_files_POST (parse : String → Except String URL) (MAX_REQUESTS : Int)
    (f : Flags) (hh : f.help = false) (hp : f.postFile ≠ "") (hu : f.putFile ≠ "") :
    (∃ cfg, (loadConfig parse MAX_REQUESTS f).built = some cfg ∧ cfg.method = "POST"
        ∧ cfg.bodyFile = f.postFile)
    ∧ ∀ u : String, u ≠ "" →
        loadConfig parse MAX_REQUESTS { f with putFile := u } = loadConfig parse MAX_REQUESTS f := by
  constructor
  · obtain ⟨host, port, hb⟩ := loadConfig_built parse MAX_REQUESTS f hh
    refine ⟨_, hb, ?_, ?_⟩
    · show (populate MAX_REQUESTS f).method = "POST"
      rw [populate_method, if_neg (by simp [hp, hu])]
    · show (populate MAX_REQUESTS f).bodyFile = f.postFile
      rw [populate_bodyFile, if_neg (by simp [hp, hu])]
  · intro u hu2
    have hpop : populate MAX_REQUESTS { f with putFile := u } = populate MAX_REQUESTS f := by
      simp [populate, inferMethod, hp, hu, hu2]
    unfold loadConfig
    rw [hpop]

theorem loadConfig_both_files_POST_witness :
    (bothFilesFlags.help = false ∧ bothFilesFlags.postFile ≠ "" ∧ bothFilesFlags.putFile ≠ "")
    ∧ ((∃ cfg, (loadConfig parseSample 50000 bothFilesFlags).built = some cfg
          ∧ cfg.method = "POST" ∧ cfg.bodyFile = bothFilesFlags.postFile)
      ∧ ∀ u : String, u ≠ "" →
          loadConfig parseSample 50000 { bothFilesFlags with putFile := u }
            = loadConfig parseSample 50000 bothFilesFlags) :=
  ⟨by decide,
   loadConfig_both_files_POST parseSample 50000 bothFilesFlags (by decide) (by decide)
     (by decide)⟩

/-- Claim C5. When neither a `-p` nor a `-u` path is given (both empty), the Config
built by `loadConfig` has method GET and an empty bodyFile. -/
theorem loadConfig_no_files_GET (parse : String → Except String URL) (MAX_REQUESTS : Int)
    (f : Flags) (hh : f.help = false) (hp : f.postFile = "") (hu : f.putFile = "") :
    ∃ cfg, (loadConfig parse MAX_REQUESTS f).built = some cfg ∧ cfg.method = "GET"
      ∧ cfg.bodyFile = "" := by
  obtain ⟨host, port, hb⟩ := loadConfig_built parse MAX_REQUESTS f hh
  refine ⟨_, hb, ?_, ?_⟩
  · show (populate MAX_REQUESTS f).method = "GET"
    rw [populate_method, if_pos (Or.inl hp)]
  · show (populate MAX_REQUESTS f).bodyFile = ""
    rw [populate_bodyFile, if_pos (Or.inr hu)]

theorem loadConfig_no_files_GET_witness :
    (defaultFlags.help = false ∧ defaultFlags.postFile = "" ∧ defaultFlags.putFile = "")
    ∧ ∃ cfg, (loadConfig parseSample 50000 defaultFlags).built = some cfg
        ∧ cfg.method = "GET" ∧ cfg.bodyFile = "" :=
  ⟨by decide,
   loadConfig_no_files_GET parseSample 50000 defaultFlags (by decide) (by decide) (by decide)⟩

/-- Claim C6. For every combination of `-p` and `-u` values, the Config built by
`loadConfig` has a method among GET, POST and PUT (never the empty string), and its
bodyFile is non-empty exactly when the method is POST or PUT. -/
theorem loadConfig_method_bodyFile (parse : String → Except String URL) (MAX_REQUESTS : Int)
    (f : Flags) (hh : f.help = false) :
    ∃ cfg, (loadConfig parse MAX_REQUESTS f).built = some cfg
      ∧ (cfg.method = "GET" ∨ cfg.method = "POST" ∨ cfg.method = "PUT")
      ∧ (cfg.bodyFile ≠ "" ↔ (cfg.method = "POST" ∨ cfg.method = "PUT")) := by
  obtain ⟨host, port, hb⟩ := loadConfig_built parse MAX_REQUESTS f hh
  refine ⟨_, hb, ?_, ?_⟩
  · show (populate MAX_REQUESTS f).method = "GET" ∨ (populate MAX_REQUESTS f).method = "POST"
      ∨ (populate MAX_REQUESTS f).method = "PUT"
    rw [populate_method]
    split_ifs
    · exact Or.inl rfl
    · exact Or.inr (Or.inl rfl)
  · show (populate MAX_REQUESTS f).bodyFile ≠ "" ↔ ((populate MAX_REQUESTS f).method = "POST"
      ∨ (populate MAX_REQUESTS f).method = "PUT")
    rw [populate_method, populate_bodyFile]
    split_ifs with hc
    · constructor
      · intro h; exact absurd rfl h
      · intro h; rcases h with h | h <;> exact absurd h (by decide)
    · constructor
      · intro _; exact Or.inl rfl
      · intro _ h; exact hc (Or.inl h)

theorem loadConfig_method_bodyFile_witness :
    bothFilesFlags.help = false
    ∧ ∃ cfg, (loadConfig parseSample 50000 bothFilesFlags).built = some cfg
        ∧ (cfg.method = "GET" ∨ cfg.method = "POST" ∨ cfg.method = "PUT")
        ∧ (cfg.bodyFile ≠ "" ↔ (cfg.method = "POST" ∨ cfg.method = "PUT")) :=
  ⟨by decide, loadConfig_method_bodyFile parseSample 50000 bothFilesFlags (by decide)⟩

/-! ## Request count -/

/-- Claim C7. The request count of the Config built by `loadConfig` is `MAX_REQUESTS`
when the `-t` value is greater than 0 and the `-n` value is 1, and is the `-n` value
unchanged in every other case. -/
theorem loadConfig_request_count (parse : String → Except String URL) (MAX_REQUESTS : Int)
    (f : Flags) (hh : f.help = false) :
    ∃ cfg, (loadConfig parse MAX_REQUESTS f).built = some cfg
      ∧ cfg.requests = if 0 < f.timelimit ∧ f.request = 1 then MAX_REQUESTS else f.request := by
  obtain ⟨host, port, hb⟩ := loadConfig_built parse MAX_REQUESTS f hh
  exact ⟨_, hb, populate_requests MAX_REQUESTS f⟩

theorem loadConfig_request_count_witness :
    timedFlags.help = false
    ∧ ∃ cfg, (loadConfig parseSample 50000 timedFlags).built = some cfg
        ∧ cfg.requests
            = if 0 < timedFlags.timelimit ∧ timedFlags.request = 1 then 50000
              else timedFlags.request :=
  ⟨by decide, loadConfig_request_count parseSample 50000 timedFlags (by decide)⟩

/-! ## Errors -/

/-- Claim C8 fails on the run `-c 10 -n 5 http://[::1]/`: the URL parses and the
concurrency exceeds the request count, yet no error is returned, because
`extractHostAndPort` ends the process on the text `1]` after the last colon. -/
theorem loadConfig_concurrency_error_counterexample :
    parseSample bracketHostFlags.lastArg = Except.ok { Scheme := "http", Host := "[::1]" }
    ∧ bracketHostFlags.concurrency > bracketHostFlags.request
    ∧ loadConfig parseSample 50000 bracketHostFlags
        = Outcome.fatal bracketHostPlan NumError.ErrSyntax := by
  decide

/-- Claim C8, amended. On a run whose URL parses, whose host and port are resolved
without ending the process, and whose concurrency is greater than the request count
(after the time-limit override), `loadConfig` returns the error "Cannot use concurrency
level greater than total number of requests", whatever the other values are. -/
theorem loadConfig_concurrency_error (parse : String → Except String URL) (MAX_REQUESTS : Int)
    (f : Flags) (u : URL) (host : String) (port : Int)
    (hh : f.help = false) (hu : parse f.lastArg = Except.ok u)
    (hr : extractHostAndPort u = Except.ok (host, port))
    (hc : f.concurrency > (if 0 < f.timelimit ∧ f.request = 1 then MAX_REQUESTS else f.request)) :
    loadConfig parse MAX_REQUESTS f
      = Outcome.returned (some { populate MAX_REQUESTS f with host := host, port := port })
          (some "Cannot use concurrency level greater than total number of requests") := by
  unfold loadConfig
  rw [if_neg (by simp [hh])]
  dsimp only
  rw [populate_url, hu]
  dsimp only
  rw [hr]
  dsimp only
  rw [validate_concurrency]
  show (populate MAX_REQUESTS f).concurrency > (populate MAX_REQUESTS f).requests
  rw [populate_concurrency, populate_requests]
  exact hc

theorem loadConfig_concurrency_error_witness :
    (overLimitFlags.help = false
      ∧ parseSample overLimitFlags.lastArg = Except.ok { Scheme := "http", Host := "example.com" }
      ∧ extractHostAndPort { Scheme := "http", Host := "example.com" }
          = Except.ok ("example.com", 80)
      ∧ overLimitFlags.concurrency
          > (if 0 < overLimitFlags.timelimit ∧ overLimitFlags.request = 1 then 50000
             else overLimitFlags.request))
    ∧ loadConfig parseSample 50000 overLimitFlags
        = Outcome.returned
            (some { populate 50000 overLimitFlags with host := "example.com", port := 80 })
            (some "Cannot use concurrency level greater than total number of requests") :=
  ⟨by decide,
   loadConfig_concurrency_error parseSample 50000 overLimitFlags
     { Scheme := "http", Host := "example.com" } "example.com" 80
     (by decide) (by decide) (by decide) (by decide)⟩

/-- Claim C9 fails on the runs `-c 10 -n 5 http://example.com/` (validation failure) and
`::bad` (URL parse failure): each returns a non-nil error together with a non-nil
Config pointer. -/
theorem loadConfig_error_with_config_counterexample :
    loadConfig parseSample 50000 overLimitFlags
        = Outcome.returned (some overLimitPlan)
            (some "Cannot use concurrency level greater than total number of requests")
    ∧ loadConfig parseSample 50000 badURLFlags
        = Outcome.returned (some badURLPlan) (some "parse: malformed URL") := by
  decide

/-- Claim C9, amended. Whenever `loadConfig` returns a non-nil error, from a URL parse
failure or from a validation failure, the Config pointer it returns is not nil: it points
to the Config filled so far, with url, concurrency and request count set from the flags;
after a URL parse failure the error is the parse error and host and port are unset. -/
theorem loadConfig_error_returns_config (parse : String → Except String URL)
    (MAX_REQUESTS : Int) (f : Flags) (p : Option Config) (e : String)
    (h : loadConfig parse MAX_REQUESTS f = Outcome.returned p (some e)) :
    ∃ cfg, p = some cfg ∧ cfg.url = f.lastArg ∧ cfg.concurrency = f.concurrency
      ∧ cfg.requests = (if 0 < f.timelimit ∧ f.request = 1 then MAX_REQUESTS else f.request)
      ∧ ∀ msg, parse f.lastArg = Except.error msg → e = msg ∧ cfg.host = "" ∧ cfg.port = 0 := by
  unfold loadConfig at h
  split at h
  · cases h
  · dsimp only at h
    rw [populate_url] at h
    split at h
    · rename_i err hparse
      simp only [Outcome.returned.injEq, Option.some.injEq] at h
      obtain ⟨hp, he⟩ := h
      refine ⟨_, hp.symm, populate_url _ _, populate_concurrency _ _, populate_requests _ _, ?_⟩
      intro msg hmsg
      rw [hparse] at hmsg
      cases hmsg
      exact ⟨he.symm, populate_host_port _ _⟩
    · rename_i url hparse
      split at h
      · cases h
      · simp only [Outcome.returned.injEq] at h
        obtain ⟨hp, _⟩ := h
        refine ⟨_, hp.symm, rfl, populate_concurrency MAX_REQUESTS f,
          populate_requests MAX_REQUESTS f, ?_⟩
        intro msg hmsg
        rw [hparse] at hmsg
        cases hmsg

theorem loadConfig_error_returns_config_witness :
    loadConfig parseSample 50000 badURLFlags
        = Outcome.returned (some badURLPlan) (some "parse: malformed URL")
    ∧ ∃ cfg, some badURLPlan = some cfg ∧ cfg.url = badURLFlags.lastArg
        ∧ cfg.concurrency = badURLFlags.concurrency
        ∧ cfg.requests
            = (if 0 < badURLFlags.timelimit ∧ badURLFlags.request = 1 then 50000
               else badURLFlags.request)
        ∧ ∀ msg, parseSample badURLFlags.lastArg = Except.error msg →
            "parse: malformed URL" = msg ∧ cfg.host = "" ∧ cfg.port = 0 :=
  ⟨by decide,
   loadConfig_error_returns_config parseSample 50000 badURLFlags (some badURLPlan)
     "parse: malformed URL" (by decide)⟩

/-- Claim C10, evaluated on the run `-t -5 http://example.com/`: `loadConfig` returns a
nil error and a Config whose timelimit is 0. The test `config.timelimit < 0` of line 109
reads the field, which line 91 sets only from a `-t` value greater than 0. -/
theorem loadConfig_negative_timelimit_accepted :
    negativeTimeFlags.timelimit = -5
    ∧ loadConfig parseSample 50000 negativeTimeFlags
        = Outcome.returned (some defaultPlan) none
    ∧ defaultPlan.timelimit = 0 := by
  decide

/-! ## Pass-through of headers and cookies -/

/-- Claim C11, evaluated on the run
`-H "Accept-Encoding: gzip" -H "X-Test: 1" -C "Apache=1234" http://example.com/`: the
Config returned has no headers and no cookies. Lines 97-100 copy the content type,
keep-alive, gzip and authentication values; the two collected sets are never copied. -/
theorem loadConfig_drops_headers_and_cookies :
    headerFlags.headers = ["Accept-Encoding: gzip", "X-Test: 1"]
    ∧ headerFlags.cookies = ["Apache=1234"]
    ∧ loadConfig parseSample 50000 headerFlags = Outcome.returned (some defaultPlan) none
    ∧ defaultPlan.headers = [] ∧ defaultPlan.cookies = [] := by
  decide

/-! ## The error of a run that reaches the checks -/

theorem loadConfig_checked (parse : String → Except String URL) (M : Int) (f : Flags)
    (u : URL) (host : String) (port : Int) (hh : f.help = false)
    (hu : parse f.lastArg = Except.ok u) (hr : extractHostAndPort u = Except.ok (host, port)) :
    loadConfig parse M f
      = Outcome.returned (some { populate M f with host := host, port := port })
          (validate { populate M f with host := host, port := port }
            f.GoMaxProcs f.Verbosity none) := by
  unfold loadConfig
  rw [if_neg (by simp [hh])]
  dsimp only
  rw [populate_url, hu]
  dsimp only
  rw [hr]

theorem validate_none_eq (c : Config) (G V : Int) :
    validate c G V none
      = if c.concurrency > c.requests then
          some "Cannot use concurrency level greater than total number of requests"
        else if c.requests < 1 ∨ c.concurrency < 1 ∨ c.timelimit < 0 ∨ G < 1 ∨ V < 0 then
          some "wrong number of arguments"
        else none := by
  unfold validate
  dsimp only

/-- Claim C12 fails on the runs `-c 0 http://example.com/` and
`-n 0 -c 0 http://example.com/`: the first breaks only `concurrency >= 1`, the second
breaks `requests >= 1` and `concurrency >= 1`, and both return the same message. -/
theorem loadConfig_error_messages_counterexample :
    (1 ≤ zeroConcurrencyFlags.request ∧ ¬ 1 ≤ zeroConcurrencyFlags.concurrency
      ∧ zeroConcurrencyFlags.concurrency ≤ zeroConcurrencyFlags.request)
    ∧ (¬ 1 ≤ zeroBothFlags.request ∧ ¬ 1 ≤ zeroBothFlags.concurrency
      ∧ zeroBothFlags.concurrency ≤ zeroBothFlags.request)
    ∧ loadConfig parseSample 50000 zeroConcurrencyFlags
        = Outcome.returned (some { defaultPlan with concurrency := 0 })
            (some "wrong number of arguments")
    ∧ loadConfig parseSample 50000 zeroBothFlags
        = Outcome.returned (some { defaultPlan with requests := 0, concurrency := 0 })
            (some "wrong number of arguments") := by
  decide

/-- Claim C12, amended. Of two runs that reach the checks (URL parsed, host and port
resolved), one that breaks `concurrency <= requests` and one that keeps it return
different errors; two runs that keep it and break `requests >= 1` or `concurrency >= 1`
both return "wrong number of arguments", whichever of the two rules each one breaks. -/
theorem loadConfig_error_messages (parse : String → Except String URL) (MAX_REQUESTS : Int)
    (f g : Flags) (uf ug : URL) (rf rg : String × Int)
    (hhf : f.help = false) (hhg : g.help = false)
    (hpf : parse f.lastArg = Except.ok uf) (hpg : parse g.lastArg = Except.ok ug)
    (hrf : extractHostAndPort uf = Except.ok rf) (hrg : extractHostAndPort ug = Except.ok rg) :
    ∃ pf pg ef eg,
      loadConfig parse MAX_REQUESTS f = Outcome.returned pf ef
      ∧ loadConfig parse MAX_REQUESTS g = Outcome.returned pg eg
      ∧ (f.concurrency > (populate MAX_REQUESTS f).requests →
          ¬ g.concurrency > (populate MAX_REQUESTS g).requests → ef ≠ eg)
      ∧ (¬ f.concurrency > (populate MAX_REQUESTS f).requests →
          ¬ g.concurrency > (populate MAX_REQUESTS g).requests →
          ((populate MAX_REQUESTS f).requests < 1 ∨ f.concurrency < 1) →
          ((populate MAX_REQUESTS g).requests < 1 ∨ g.concurrency < 1) →
          ef = some "wrong number of arguments" ∧ eg = some "wrong number of arguments") := by
  obtain ⟨fh, fp⟩ := rf
  obtain ⟨gh, gp⟩ := rg
  refine ⟨_, _, _, _, loadConfig_checked parse MAX_REQUESTS f uf fh fp hhf hpf hrf,
    loadConfig_checked parse MAX_REQUESTS g ug gh gp hhg hpg hrg, ?_, ?_⟩
  · intro h1 h2
    rw [validate_none_eq, validate_none_eq]
    have h1c : (populate MAX_REQUESTS f).concurrency > (populate MAX_REQUESTS f).requests := by
      rw [populate_concurrency]; exact h1
    have h2c : ¬ (populate MAX_REQUESTS g).concurrency > (populate MAX_REQUESTS g).requests := by
      rw [populate_concurrency]; exact h2
    dsimp only
    rw [if_pos h1c, if_neg h2c]
    split_ifs <;> simp
  · intro h1 h2 h3 h4
    rw [validate_none_eq, validate_none_eq]
    have h1c : ¬ (populate MAX_REQUESTS f).concurrency > (populate MAX_REQUESTS f).requests := by
      rw [populate_concurrency]; exact h1
    have h2c : ¬ (populate MAX_REQUESTS g).concurrency > (populate MAX_REQUESTS g).requests := by
      rw [populate_concurrency]; exact h2
    rw [← populate_concurrency MAX_REQUESTS f] at h3
    rw [← populate_concurrency MAX_REQUESTS g] at h4
    dsimp only
    rw [if_neg h1c, if_neg h2c, if_pos (by tauto), if_pos (by tauto)]
    exact ⟨rfl, rfl⟩

theorem loadConfig_error_messages_witness :
    (overLimitFlags.help = false ∧ zeroConcurrencyFlags.help = false
      ∧ parseSample overLimitFlags.lastArg = Except.ok { Scheme := "http", Host := "example.com" }
      ∧ parseSample zeroConcurrencyFlags.lastArg
          = Except.ok { Scheme := "http", Host := "example.com" }
      ∧ extractHostAndPort { Scheme := "http", Host := "example.com" }
          = Except.ok ("example.com", 80))
    ∧ ∃ pf pg ef eg,
        loadConfig parseSample 50000 overLimitFlags = Outcome.returned pf ef
        ∧ loadConfig parseSample 50000 zeroConcurrencyFlags = Outcome.returned pg eg
        ∧ (overLimitFlags.concurrency > (populate 50000 overLimitFlags).requests →
            ¬ zeroConcurrencyFlags.concurrency > (populate 50000 zeroConcurrencyFlags).requests →
            ef ≠ eg)
        ∧ (¬ overLimitFlags.concurrency > (populate 50000 overLimitFlags).requests →
            ¬ zeroConcurrencyFlags.concurrency > (populate 50000 zeroConcurrencyFlags).requests →
            ((populate 50000 overLimitFlags).requests < 1 ∨ overLimitFlags.concurrency < 1) →
            ((populate 50000 zeroConcurrencyFlags).requests < 1
              ∨ zeroConcurrencyFlags.concurrency < 1) →
            ef = some "wrong number of arguments" ∧ eg = some "wrong number of arguments") :=
  ⟨by decide,
   loadConfig_error_messages parseSample 50000 overLimitFlags zeroConcurrencyFlags
     { Scheme := "http", Host := "example.com" } { Scheme := "http", Host := "example.com" }
     ("example.com", 80) ("example.com", 80)
     (by decide) (by decide) (by decide) (by decide) (by decide) (by decide)⟩

/-! ## The last colon of the authority -/

theorem lastIndexFrom_not_mem (c : Char) (xs : List Char) (i acc : Int) (h : c ∉ xs) :
    lastIndexFrom c xs i acc = acc := by
  induction xs generalizing i acc with
  | nil => rfl
  | cons x t ih =>
    have hx : x ≠ c := fun e => h (by simp [e])
    have ht : c ∉ t := fun e => h (by simp [e])
    simp only [lastIndexFrom, if_neg hx]
    exact ih _ _ ht

theorem lastIndexFrom_split (c : Char) (a b : List Char) (i acc : Int) (h : c ∉ b) :
    lastIndexFrom c (a ++ c :: b) i acc = i + a.length := by
  induction a generalizing i acc with
  | nil =>
    simp only [List.nil_append, lastIndexFrom, if_true, List.length_nil]
    rw [lastIndexFrom_not_mem c b _ _ h]
    simp
  | cons x t ih =>
    show lastIndexFrom c (t ++ c :: b) (i + 1) (if x = c then i else acc)
      = i + ((t.length + 1 : Nat) : Int)
    rw [ih]
    push_cast
    ring

theorem lastIndexFrom_cases (c : Char) (xs : List Char) (i acc : Int) :
    (c ∉ xs ∧ lastIndexFrom c xs i acc = acc)
    ∨ ∃ a b, xs = a ++ c :: b ∧ c ∉ b ∧ lastIndexFrom c xs i acc = i + a.length := by
  by_cases hmem : c ∈ xs
  · right
    obtain ⟨a, b, hab, hb⟩ : ∃ a b, xs = a ++ c :: b ∧ c ∉ b := by
      clear i acc
      induction xs with
      | nil => simp at hmem
      | cons x t ih =>
        by_cases ht : c ∈ t
        · obtain ⟨a, b, hab, hb⟩ := ih ht
          exact ⟨x :: a, b, by simp [hab], hb⟩
        · have hx : c = x := by
            rcases List.mem_cons.mp hmem with h | h
            · exact h
            · exact absurd h ht
          exact ⟨[], t, by simp [hx], ht⟩
    exact ⟨a, b, hab, hb, by rw [hab]; exact lastIndexFrom_split c a b i acc hb⟩
  · left
    exact ⟨hmem, lastIndexFrom_not_mem c xs i acc hmem⟩

theorem extractHostAndPort_of_tail (u : URL) (h : ':' ∉ u.Host.data.tail) :
    extractHostAndPort u
      = Except.ok (u.Host,
          if u.Scheme = "http" then 80 else if u.Scheme = "https" then 443 else 0) := by
  have hpos : ¬ lastIndex u.Host ':' > 0 := by
    unfold lastIndex
    rcases lastIndexFrom_cases ':' u.Host.data 0 (-1) with ⟨_, h1⟩ | ⟨a, b, hab, _, h1⟩
    · rw [h1]; decide
    · rw [h1]
      cases a with
      | nil => simp
      | cons x t =>
        exfalso
        apply h
        rw [hab]
        simp
  unfold extractHostAndPort
  dsimp only
  rw [if_neg hpos]
  split_ifs <;> rfl

/-- Claim C13. When the authority has no colon at an index greater than 0 (the
characters at those indices are the tail of the authority), `extractHostAndPort` returns
the whole authority as host, a leading colon included, and the port 80 for the scheme
`http`, 443 for `https` and 0 for every other scheme. -/
theorem extractHostAndPort_default_port (u : URL) (h : ':' ∉ u.Host.data.tail) :
    extractHostAndPort u
      = Except.ok (u.Host,
          if u.Scheme = "http" then 80 else if u.Scheme = "https" then 443 else 0) :=
  extractHostAndPort_of_tail u h

theorem extractHostAndPort_default_port_witness :
    ':' ∉ (URL.mk "ftp" ":8080").Host.data.tail
    ∧ extractHostAndPort (URL.mk "ftp" ":8080")
        = Except.ok ((URL.mk "ftp" ":8080").Host,
            if (URL.mk "ftp" ":8080").Scheme = "http" then 80
            else if (URL.mk "ftp" ":8080").Scheme = "https" then 443 else 0) :=
  ⟨by decide, extractHostAndPort_default_port (URL.mk "ftp" ":8080") (by decide)⟩

/-! ## `Atoi` and the base-10 integers -/

theorem foldl_digits_ge (ds : List Char) (n : Nat) :
    n ≤ ds.foldl (fun n c => n * 10 + (c.toNat - 48)) n := by
  induction ds generalizing n with
  | nil => exact Nat.le_refl n
  | cons c cs ih =>
    simp only [List.foldl_cons]
    exact Nat.le_trans (by omega) (ih _)

theorem parseUintFrom_ok_iff (ds : List Char) (n v : Nat) (hn : n ≤ 2 ^ intSize - 1) :
    parseUintFrom ds n = Except.ok v
      ↔ (∀ c ∈ ds, c.isDigit = true)
        ∧ v = ds.foldl (fun n c => n * 10 + (c.toNat - 48)) n
        ∧ ds.foldl (fun n c => n * 10 + (c.toNat - 48)) n ≤ 2 ^ intSize - 1 := by
  induction ds generalizing n with
  | nil =>
    simp only [parseUintFrom, List.foldl_nil, List.not_mem_nil, false_implies, implies_true,
      true_and, Except.ok.injEq]
    constructor
    · intro h; exact ⟨h.symm, h ▸ hn⟩
    · intro h; exact h.1.symm
  | cons c cs ih =>
    simp only [parseUintFrom, List.foldl_cons, List.mem_cons, forall_eq_or_imp]
    by_cases hd : c.isDigit = true
    · rw [if_neg (by simp [hd])]
      by_cases hr : n * 10 + (c.toNat - 48) > 2 ^ intSize - 1
      · rw [if_pos hr]
        constructor
        · intro h; cases h
        · intro h
          have := foldl_digits_ge cs (n * 10 + (c.toNat - 48))
          omega
      · rw [if_neg hr, ih _ (by omega)]
        simp [hd]
    · rw [if_pos (by simp [hd])]
      constructor
      · intro h; cases h
      · intro h; exact absurd h.1.1 hd

theorem ParseUint_ok_iff (ds : List Char) (v : Nat) :
    ParseUint ds = Except.ok v
      ↔ ds ≠ [] ∧ (∀ c ∈ ds, c.isDigit = true) ∧ v = digitsValue ds
        ∧ digitsValue ds ≤ 2 ^ intSize - 1 := by
  unfold ParseUint digitsValue
  by_cases he : ds = []
  · rw [if_pos he]
    constructor
    · intro h; cases h
    · intro h; exact absurd he h.1
  · rw [if_neg he, parseUintFrom_ok_iff ds 0 v (Nat.zero_le _)]
    simp [he]

theorem pow_intSize_int : (2 : Int) ^ (intSize - 1) = 9223372036854775808 := by decide

theorem pow_intSize_nat : (2 : Nat) ^ (intSize - 1) = 9223372036854775808 := by decide

theorem pow_intSize_max : (2 : Nat) ^ intSize - 1 = 18446744073709551615 := by decide

theorem Atoi_ok_iff (s : String) (v : Int) :
    Atoi s = Except.ok v ↔ validBase10Int s ∧ v = base10Value s := by
  unfold Atoi ParseInt validBase10Int base10Value unsignedPart
  cases hs : s.data with
  | nil => simp
  | cons c rest =>
    dsimp only [List.head?]
    generalize hD : (if c = '+' ∨ c = '-' then rest else c :: rest) = D
    rw [pow_intSize_int, pow_intSize_nat]
    have key := ParseUint_ok_iff D
    rw [pow_intSize_max] at key
    rcases hP : ParseUint D with e | un
    · dsimp only
      constructor
      · intro h; cases h
      · rintro ⟨⟨h1, h2, h3, h4⟩, _⟩
        have : ParseUint D = Except.ok (digitsValue D) := by
          rw [key]
          refine ⟨h1, h2, rfl, ?_⟩
          split_ifs at h3 h4 <;> omega
        rw [hP] at this
        cases this
    · dsimp only
      obtain ⟨h1, h2, h3, h4⟩ := (key un).mp hP
      subst h3
      by_cases hneg : c = '-'
      · simp only [hneg, decide_True, Bool.true_eq_false, false_and, if_false, true_and,
          if_true, Option.some.injEq]
        split_ifs with hgt
        · constructor
          · intro h; cases h
          · rintro ⟨⟨_, _, h5, _⟩, _⟩; omega
        · simp only [Except.ok.injEq]
          constructor
          · intro h; exact ⟨⟨h1, h2, by omega, by omega⟩, h.symm⟩
          · rintro ⟨_, h⟩; exact h.symm
      · simp only [hneg, decide_False, true_and, Bool.false_eq_true, false_and, if_false,
          Option.some.injEq]
        split_ifs with hge
        · constructor
          · intro h; cases h
          · rintro ⟨⟨_, _, _, h6⟩, _⟩; omega
        · simp only [Except.ok.injEq]
          constructor
          · intro h; exact ⟨⟨h1, h2, by omega, by omega⟩, h.symm⟩
          · rintro ⟨_, h⟩; exact h.symm

theorem Atoi_ok_of_valid (s : String) (h : validBase10Int s) :
    Atoi s = Except.ok (base10Value s) :=
  (Atoi_ok_iff s (base10Value s)).mpr ⟨h, rfl⟩

theorem Atoi_error_of_not_valid (s : String) (h : ¬ validBase10Int s) :
    ∃ e, Atoi s = Except.error e := by
  rcases hA : Atoi s with e | v
  · exact ⟨e, rfl⟩
  · exact absurd ((Atoi_ok_iff s v).mp hA).1 h

/-! ## Host and port -/

theorem host_split_iff (s h d : String) :
    s = h ++ ":" ++ d ↔ s.data = h.data ++ ':' :: d.data := by
  rw [String.ext_iff]
  simp [String.data_append]

theorem split_unique (c : Char) (a b a2 b2 : List Char) (hb : c ∉ b) (hb2 : c ∉ b2)
    (h : a ++ c :: b = a2 ++ c :: b2) : a = a2 ∧ b = b2 := by
  have h1 := lastIndexFrom_split c a b 0 0 hb
  have h2 := lastIndexFrom_split c a2 b2 0 0 hb2
  rw [h, h2] at h1
  have hlen : a.length = a2.length := by omega
  have := List.append_inj h hlen
  exact ⟨this.1, by simpa using this.2⟩

theorem extractHostAndPort_split (u : URL) (a b : List Char) (hu : u.Host.data = a ++ ':' :: b)
    (ha : a ≠ []) (hb : ':' ∉ b) :
    extractHostAndPort u
      = match Atoi (String.mk b) with
        | Except.error err => Except.error err
        | Except.ok port => Except.ok (String.mk a, port) := by
  have hlast : lastIndex u.Host ':' = (a.length : Int) := by
    unfold lastIndex
    rw [hu, lastIndexFrom_split ':' a b 0 (-1) hb]
    simp
  have hpos : lastIndex u.Host ':' > 0 := by
    rw [hlast]
    have : 0 < a.length := List.length_pos.mpr ha
    omega
  unfold extractHostAndPort
  dsimp only
  rw [if_pos hpos, hlast]
  simp only [Int.toNat_ofNat, slice, sliceFrom, hu, List.drop_zero, Nat.sub_zero,
    List.take_left, List.drop_left]
  have : List.drop (a.length + 1) (a ++ ':' :: b) = b := by
    rw [List.drop_append_eq_append_drop]
    simp
  rw [this]

/-- Claim C14. When the authority is `h ++ ":" ++ d` with `h` non-empty, `d` without a
colon and `d` a valid base-10 integer, `extractHostAndPort` returns the host `h` and as
port the integer that `d` denotes, whatever the scheme is. -/
theorem extractHostAndPort_explicit_port (u : URL) (h d : String)
    (hu : u.Host = h ++ ":" ++ d) (hh : h ≠ "") (hd : ':' ∉ d.data)
    (hv : validBase10Int d) :
    extractHostAndPort u = Except.ok (h, base10Value d) := by
  rw [host_split_iff] at hu
  have ha : h.data ≠ [] := fun e => hh (String.ext_iff.mpr (by simp [e]))
  rw [extractHostAndPort_split u h.data d.data hu ha hd]
  have hmk : String.mk d.data = d := rfl
  rw [hmk, Atoi_ok_of_valid d hv]

theorem extractHostAndPort_explicit_port_witness :
    ((URL.mk "https" "example.com:8443").Host = "example.com" ++ ":" ++ "8443"
      ∧ "example.com" ≠ "" ∧ ':' ∉ "8443".data ∧ validBase10Int "8443")
    ∧ extractHostAndPort (URL.mk "https" "example.com:8443")
        = Except.ok ("example.com", base10Value "8443") :=
  ⟨by decide,
   extractHostAndPort_explicit_port (URL.mk "https" "example.com:8443") "example.com" "8443"
     (by decide) (by decide) (by decide) (by decide)⟩

theorem extractHostAndPort_error_iff (u : URL) :
    (∃ e, extractHostAndPort u = Except.error e)
      ↔ ∃ h d : String, u.Host = h ++ ":" ++ d ∧ h ≠ "" ∧ ':' ∉ d.data
          ∧ ¬ validBase10Int d := by
  rcases lastIndexFrom_cases ':' u.Host.data 0 (-1) with ⟨hno, _⟩ | ⟨a, b, hab, hb, _⟩
  · have ht : ':' ∉ u.Host.data.tail := fun hm => hno (List.mem_of_mem_tail hm)
    rw [extractHostAndPort_of_tail u ht]
    constructor
    · rintro ⟨e, he⟩; cases he
    · rintro ⟨h, d, hu, _, _, _⟩
      rw [host_split_iff] at hu
      exact absurd (by rw [hu]; simp) hno
  · cases a with
    | nil =>
      have ht : ':' ∉ u.Host.data.tail := by rw [hab]; simpa using hb
      rw [extractHostAndPort_of_tail u ht]
      constructor
      · rintro ⟨e, he⟩; cases he
      · rintro ⟨h, d, hu, hh, hd, _⟩
        rw [host_split_iff, hab] at hu
        have := (split_unique ':' [] b h.data d.data hb hd hu).1
        exact absurd (String.ext_iff.mpr (by simp [← this])) hh
    | cons x t =>
      rw [extractHostAndPort_split u (x :: t) b hab (by simp) hb]
      constructor
      · rintro ⟨e, he⟩
        refine ⟨String.mk (x :: t), String.mk b, ?_, ?_, hb, ?_⟩
        · rw [host_split_iff]; exact hab
        · intro hc; exact List.cons_ne_nil x t (congrArg String.data hc)
        · intro hv
          rw [Atoi_ok_of_valid _ hv] at he
          cases he
      · rintro ⟨h, d, hu, _, hd, hv⟩
        rw [host_split_iff, hab] at hu
        have hbd : b = d.data := (split_unique ':' (x :: t) b h.data d.data hb hd hu).2
        have hmk : String.mk b = d := by rw [hbd]
        obtain ⟨e, he⟩ := Atoi_error_of_not_valid d hv
        rw [hmk, he]
        exact ⟨e, rfl⟩

/-- Claim C15. `extractHostAndPort` ends the process exactly when the last colon of the
authority is at an index greater than 0 (the authority is `h ++ ":" ++ d` with `h`
non-empty and `d` without a colon) and the text `d` after it is not a valid base-10
integer; on every other authority it returns. The authorities `example.com:` (empty
text) and `[::1]` are of the first kind. -/
theorem extractHostAndPort_fatal_iff (u : URL) :
    ((∃ e, extractHostAndPort u = Except.error e)
      ↔ ∃ h d : String, u.Host = h ++ ":" ++ d ∧ h ≠ "" ∧ ':' ∉ d.data
          ∧ ¬ validBase10Int d)
    ∧ ((∃ r, extractHostAndPort u = Except.ok r)
      ↔ ¬ ∃ h d : String, u.Host = h ++ ":" ++ d ∧ h ≠ "" ∧ ':' ∉ d.data
          ∧ ¬ validBase10Int d)
    ∧ extractHostAndPort { Scheme := "http", Host := "example.com:" }
        = Except.error NumError.ErrSyntax
    ∧ extractHostAndPort { Scheme := "http", Host := "[::1]" }
        = Except.error NumError.ErrSyntax := by
  refine ⟨extractHostAndPort_error_iff u, ?_, by decide, by decide⟩
  rw [← extractHostAndPort_error_iff u]
  rcases hE : extractHostAndPort u with e | r
  · constructor
    · rintro ⟨r, hr⟩; cases hr
    · intro hne; exact absurd ⟨e, rfl⟩ hne
  · constructor
    · rintro _ ⟨e, he⟩; cases he
    · intro _; exact ⟨r, rfl⟩

/-! ## Range of the resolved port -/

theorem extractHostAndPort_port_range (u : URL) (host : String) (port : Int)
    (h : extractHostAndPort u = Except.ok (host, port)) :
    - (2 : Int) ^ (intSize - 1) ≤ port ∧ port ≤ (2 : Int) ^ (intSize - 1) - 1 := by
  unfold extractHostAndPort at h
  dsimp only at h
  split at h
  · split at h
    · cases h
    · rename_i p hA
      simp only [Except.ok.injEq, Prod.mk.injEq] at h
      obtain ⟨hv, _⟩ := (Atoi_ok_iff _ _).mp hA
      rw [← h.2]
      have hval := (Atoi_ok_iff _ _).mp hA
      rw [hval.2]
      exact ⟨hv.2.2.1, hv.2.2.2⟩
  · rw [pow_intSize_int]
    split_ifs at h <;>
      (simp only [Except.ok.injEq, Prod.mk.injEq] at h; rw [← h.2]; constructor <;> decide)

/-- Claim C16 fails on the runs `ftp://example.com/` and `http://example.com:99999/`:
`loadConfig` succeeds on both, with the ports 0 and 99999. -/
theorem loadConfig_port_range_counterexample :
    loadConfig parsePorts 50000 ftpFlags = Outcome.returned (some ftpPlan) none
    ∧ ftpPlan.port = 0
    ∧ loadConfig parsePorts 50000 bigPortFlags = Outcome.returned (some bigPortPlan) none
    ∧ bigPortPlan.port = 99999 := by
  decide

/-- Claim C16, amended. Whenever `loadConfig` succeeds, the host and port of its Config
are those that `extractHostAndPort` yields on the parsed URL (the integer after the
last colon of the authority, or the default 80, 443 or 0 by scheme), and the port is
an integer of the range of `int`; no narrower bound is imposed on it. -/
theorem loadConfig_port_resolved (parse : String → Except String URL) (MAX_REQUESTS : Int)
    (f : Flags) (cfg : Config)
    (h : loadConfig parse MAX_REQUESTS f = Outcome.returned (some cfg) none) :
    ∃ u, parse f.lastArg = Except.ok u
      ∧ extractHostAndPort u = Except.ok (cfg.host, cfg.port)
      ∧ - (2 : Int) ^ (intSize - 1) ≤ cfg.port ∧ cfg.port ≤ (2 : Int) ^ (intSize - 1) - 1 := by
  unfold loadConfig at h
  split at h
  · cases h
  · dsimp only at h
    rw [populate_url] at h
    split at h
    · cases h
    · rename_i u hparse
      split at h
      · cases h
      · rename_i host port hres
        simp only [Outcome.returned.injEq, Option.some.injEq] at h
        obtain ⟨hc, _⟩ := h
        subst hc
        exact ⟨u, hparse, hres, extractHostAndPort_port_range u host port hres⟩

theorem loadConfig_port_resolved_witness :
    loadConfig parsePorts 50000 bigPortFlags = Outcome.returned (some bigPortPlan) none
    ∧ ∃ u, parsePorts bigPortFlags.lastArg = Except.ok u
        ∧ extractHostAndPort u = Except.ok (bigPortPlan.host, bigPortPlan.port)
        ∧ - (2 : Int) ^ (intSize - 1) ≤ bigPortPlan.port
        ∧ bigPortPlan.port ≤ (2 : Int) ^ (intSize - 1) - 1 :=
  ⟨by decide, loadConfig_port_resolved parsePorts 50000 bigPortFlags bigPortPlan (by decide)⟩

/-! ## The repeatable options -/

theorem stringSet_SetAll_eq (s : stringSet) (values : List String) :
    stringSet.SetAll s values = s ++ values := by
  unfold stringSet.SetAll
  induction values generalizing s with
  | nil => simp
  | cons v vs ih =>
    rw [List.foldl_cons, ih]
    show (s ++ [v]) ++ vs = s ++ v :: vs
    simp

/-- Claim C17. For every `stringSet` and every string, `Set` returns a nil error and
leaves the set with the value appended at its end, the earlier elements unchanged and
in place; successive `Set` calls on an empty set yield exactly the values given, in
order, duplicates included. -/
theorem stringSet_Set_appends (s : stringSet) (v : String) (values : List String) :
    (stringSet.Set s v).2 = none
    ∧ (stringSet.Set s v).1 = s ++ [v]
    ∧ (stringSet.Set s v).1.take s.length = s
    ∧ stringSet.SetAll [] values = values := by
  refine ⟨rfl, rfl, ?_, ?_⟩
  · show (s ++ [v]).take s.length = s
    simp
  · rw [stringSet_SetAll_eq]
    simp

/-! ## The stop watch -/

theorem StopWatch_run_append {L : TimeLib} (w : StopWatch L) (a b : List (Call L)) :
    w.run (a ++ b) = (w.run a).run b := by
  unfold StopWatch.run
  rw [List.foldl_append]

theorem StopWatch_run_cons {L : TimeLib} (w : StopWatch L) (c : Call L) (l : List (Call L)) :
    w.run (c :: l)
      = StopWatch.run (match c with
          | Call.Start now => w.Start now
          | Call.Stop now => w.Stop now) l := rfl

theorem StopWatch_run_no_stop {L : TimeLib} (w : StopWatch L) (l : List (Call L))
    (h : ∀ c ∈ l, c.isStop = false) : (w.run l).Elapsed = w.Elapsed := by
  induction l generalizing w with
  | nil => rfl
  | cons c t ih =>
    rw [StopWatch_run_cons]
    cases c with
    | Start now =>
      rw [ih _ (fun c hc => h c (List.mem_cons_of_mem _ hc))]
      rfl
    | Stop now =>
      have := h (Call.Stop now) (List.mem_cons_self _ _)
      cases this

theorem StopWatch_run_no_start {L : TimeLib} (w : StopWatch L) (l : List (Call L))
    (h : ∀ c ∈ l, c.isStart = false) : (w.run l).start = w.start := by
  induction l generalizing w with
  | nil => rfl
  | cons c t ih =>
    rw [StopWatch_run_cons]
    cases c with
    | Start now =>
      have := h (Call.Start now) (List.mem_cons_self _ _)
      cases this
    | Stop now =>
      rw [ih _ (fun c hc => h c (List.mem_cons_of_mem _ hc))]
      rfl

theorem StopWatch_run_last_stop {L : TimeLib} (w : StopWatch L) (pre post : List (Call L))
    (t : L.Time) (h : ∀ c ∈ post, c.isStop = false) :
    (w.run (pre ++ Call.Stop t :: post)).Elapsed = L.Sub t (w.run pre).start := by
  rw [StopWatch_run_append, StopWatch_run_cons]
  dsimp only
  rw [StopWatch_run_no_stop _ post h]
  rfl

/-- Claim C18. With the clock reading of each call given, for every sequence of `Start`
and `Stop` calls on a zero-valued `StopWatch`: `Start` never changes `Elapsed`;
`Elapsed` is zero if the sequence holds no `Stop`; otherwise it is the instant of the
last `Stop` minus (`Time.Sub`) the instant of the most recent `Start` before that
`Stop`, or minus the zero instant if no `Start` comes before it. -/
theorem StopWatch_elapsed (L : TimeLib) :
    (∀ (w : StopWatch L) (now : L.Time), (w.Start now).Elapsed = w.Elapsed)
    ∧ (∀ calls : List (Call L), (∀ c ∈ calls, c.isStop = false) →
        ((StopWatch.zero L).run calls).Elapsed = L.zeroDuration)
    ∧ (∀ (pre post : List (Call L)) (t : L.Time), (∀ c ∈ post, c.isStop = false) →
        ((∀ c ∈ pre, c.isStart = false) →
          ((StopWatch.zero L).run (pre ++ Call.Stop t :: post)).Elapsed = L.Sub t L.zeroTime)
        ∧ (∀ (a b : List (Call L)) (s : L.Time), pre = a ++ Call.Start s :: b →
            (∀ c ∈ b, c.isStart = false) →
            ((StopWatch.zero L).run (pre ++ Call.Stop t :: post)).Elapsed = L.Sub t s)) := by
  refine ⟨fun _ _ => rfl, ?_, ?_⟩
  · intro calls h
    rw [StopWatch_run_no_stop _ calls h]
    rfl
  · intro pre post t hpost
    constructor
    · intro hpre
      rw [StopWatch_run_last_stop _ pre post t hpost, StopWatch_run_no_start _ pre hpre]
      rfl
    · intro a b s hab hb
      rw [StopWatch_run_last_stop _ pre post t hpost, hab, StopWatch_run_append,
        StopWatch_run_cons]
      dsimp only
      rw [StopWatch_run_no_start _ b hb]
      rfl

theorem StopWatch_elapsed_witness :
    ((StopWatch.zero intTime).run
        ([Call.Start 5, Call.Stop 12, Call.Start 20, Call.Start 30]
          ++ Call.Stop 50 :: [Call.Start 60])).Elapsed
      = intTime.Sub 50 30
    ∧ ((StopWatch.zero intTime).run ([] ++ Call.Stop 7 :: [])).Elapsed
      = intTime.Sub 7 intTime.zeroTime :=
  ⟨((StopWatch_elapsed intTime).2.2
      [Call.Start 5, Call.Stop 12, Call.Start 20, Call.Start 30] [Call.Start 60] 50
      (by decide)).2
      [Call.Start 5, Call.Stop 12, Call.Start 20] [] 30 rfl (by decide),
   ((StopWatch_elapsed intTime).2.2 [] [] 7 (by decide)).1 (by decide)⟩

/-! ## The failure trace -/

theorem foldl_append_eq_join (l : List String) (acc : String) :
    l.foldl (fun r s => r ++ s) acc = acc ++ String.join l := by
  induction l generalizing acc with
  | nil => simp [String.join]
  | cons x t ih =>
    rw [List.foldl_cons, ih]
    have hj : String.join (x :: t) = x ++ String.join t := by
      show List.foldl (fun r s => r ++ s) ("" ++ x) t = x ++ String.join t
      rw [ih]
      simp
    rw [hj, String.append_assoc]

theorem join_cons (x : String) (t : List String) :
    String.join (x :: t) = x ++ String.join t := by
  unfold String.join
  rw [List.foldl_cons, foldl_append_eq_join]
  simp [String.join]

theorem traceFrames_eq (stack : List Frame) (k skip : Nat) (buffer : String)
    (hk : stack.length ≤ skip + k) :
    traceFrames stack skip buffer
      = buffer ++ String.join ((stack.drop skip).map (fun fr =>
          "\t" ++ fr.file ++ ":" ++ toString fr.line ++ " " ++ fr.name ++ "()\n")) := by
  induction k generalizing skip buffer with
  | zero =>
    rw [traceFrames]
    have hnone : Caller stack skip = none := by
      unfold Caller
      exact List.getElem?_eq_none (by omega)
    split
    · rw [List.drop_of_length_le (by omega)]
      simp [String.join]
    · rename_i fr hfr
      rw [hnone] at hfr
      cases hfr
  | succ k ih =>
    rw [traceFrames]
    split
    · rename_i hnone
      unfold Caller at hnone
      rw [List.getElem?_eq_none_iff] at hnone
      rw [List.drop_of_length_le hnone]
      simp [String.join]
    · rename_i fr hfr
      unfold Caller at hfr
      obtain ⟨hlt, hget⟩ := List.getElem?_eq_some_iff.mp hfr
      rw [ih (skip + 1) _ (by omega), List.drop_eq_getElem_cons hlt, hget, List.map_cons,
        join_cons, String.append_assoc]

/-- Claim C19 fails on a failure traced at verbosity 2 under a call chain of two
frames: each frame line written starts with a tab, so the text differs from the one made
of lines of the form `<file>:<line> <function>()`. -/
theorem TraceException_frame_line_counterexample :
    TraceException 2 (ownFrame :: sampleChain) "boom"
      = ["recover: boom\n\tgb.go:42 main.work()\n\tgb.go:10 main.main()\n\n"]
    ∧ TraceException 2 (ownFrame :: sampleChain) "boom"
      ≠ ["recover: boom\ngb.go:42 main.work()\ngb.go:10 main.main()\n\n"] := by
  have h : TraceException 2 (ownFrame :: sampleChain) "boom"
      = ["recover: boom\n\tgb.go:42 main.work()\n\tgb.go:10 main.main()\n\n"] := by
    unfold TraceException
    rw [if_pos (by decide)]
    dsimp only
    rw [traceFrames_eq _ 3 1 _ (by decide)]
    decide
  exact ⟨h, by rw [h]; decide⟩

/-- Claim C19, amended. `TraceException` writes nothing when Verbosity is at most 0; the
single line `recover: <value>` when Verbosity is 1; and when Verbosity is greater than 1
one text made of that same first line, then one line per frame of the call chain, in
order from the caller outward, each made of a tab followed by
`<file>:<line> <function>()`, then one empty line. -/
theorem TraceException_output (Verbosity : Int) (self : Frame) (chain : List Frame)
    (msg : String) :
    TraceException Verbosity (self :: chain) msg
      = if Verbosity ≤ 0 then []
        else if Verbosity = 1 then ["recover: " ++ msg ++ "\n"]
        else ["recover: " ++ msg ++ "\n"
                ++ String.join (chain.map (fun fr =>
                    "\t" ++ fr.file ++ ":" ++ toString fr.line ++ " " ++ fr.name ++ "()\n"))
                ++ "\n"] := by
  unfold TraceException
  by_cases h1 : Verbosity > 1
  · rw [if_pos h1, if_neg (by omega), if_neg (by omega)]
    dsimp only
    rw [traceFrames_eq (self :: chain) chain.length 1 _ (by simp; omega)]
    simp
  · rw [if_neg h1]
    by_cases h0 : Verbosity > 0
    · rw [if_pos h0, if_neg (by omega), if_pos (by omega)]
    · rw [if_neg h0, if_pos (by omega)]

/-! ## When `loadConfig` succeeds -/

/-- Claim C20 fails on the run `http://[::1]/` with every flag at its default: the URL
parses and every rule holds, yet `loadConfig` returns no nil error, because
`extractHostAndPort` ends the process on the text `1]` after the last colon. -/
theorem loadConfig_nil_error_iff_counterexample :
    parseSample bracketDefaultFlags.lastArg = Except.ok { Scheme := "http", Host := "[::1]" }
    ∧ (1 ≤ bracketDefaultFlags.request ∧ 1 ≤ bracketDefaultFlags.concurrency
      ∧ bracketDefaultFlags.concurrency ≤ bracketDefaultFlags.request
      ∧ 1 ≤ bracketDefaultFlags.GoMaxProcs ∧ 0 ≤ bracketDefaultFlags.Verbosity)
    ∧ loadConfig parseSample 50000 bracketDefaultFlags
        = Outcome.fatal bracketDefaultPlan NumError.ErrSyntax := by
  decide

/-- Claim C20, amended. On a run that is not the `-h` run, `loadConfig` returns a nil
error if and only if the URL parses, `extractHostAndPort` returns on it, the request
count after the time-limit override is at least 1, concurrency is at least 1 and at most
that request count, GoMaxProcs is at least 1 and Verbosity at least 0. A GoMaxProcs
below 1 or a negative Verbosity alone makes an otherwise valid run return "wrong number
of arguments". No other flag enters the condition. -/
theorem loadConfig_nil_error_iff (parse : String → Except String URL) (MAX_REQUESTS : Int)
    (f : Flags) (hh : f.help = false) :
    ((∃ p, loadConfig parse MAX_REQUESTS f = Outcome.returned p none)
      ↔ ∃ u, parse f.lastArg = Except.ok u ∧ (∃ r, extractHostAndPort u = Except.ok r)
          ∧ 1 ≤ (if 0 < f.timelimit ∧ f.request = 1 then MAX_REQUESTS else f.request)
          ∧ 1 ≤ f.concurrency
          ∧ f.concurrency ≤ (if 0 < f.timelimit ∧ f.request = 1 then MAX_REQUESTS else f.request)
          ∧ 1 ≤ f.GoMaxProcs ∧ 0 ≤ f.Verbosity)
    ∧ (∀ u r, parse f.lastArg = Except.ok u → extractHostAndPort u = Except.ok r →
        1 ≤ (if 0 < f.timelimit ∧ f.request = 1 then MAX_REQUESTS else f.request) →
        1 ≤ f.concurrency →
        f.concurrency ≤ (if 0 < f.timelimit ∧ f.request = 1 then MAX_REQUESTS else f.request) →
        (f.GoMaxProcs < 1 ∨ f.Verbosity < 0) →
        ∃ p, loadConfig parse MAX_REQUESTS f
          = Outcome.returned p (some "wrong number of arguments")) := by
  have htl : 0 ≤ (populate MAX_REQUESTS f).timelimit := by
    rw [populate_timelimit]; split_ifs <;> omega
  constructor
  · constructor
    · rintro ⟨p, hp⟩
      rcases hpar : parse f.lastArg with e | u
      · unfold loadConfig at hp
        rw [if_neg (by simp [hh])] at hp
        dsimp only at hp
        rw [populate_url, hpar] at hp
        cases hp
      · rcases hres : extractHostAndPort u with e | ⟨host, port⟩
        · unfold loadConfig at hp
          rw [if_neg (by simp [hh])] at hp
          dsimp only at hp
          rw [populate_url, hpar] at hp
          dsimp only at hp
          rw [hres] at hp
          cases hp
        · rw [loadConfig_checked parse MAX_REQUESTS f u host port hh hpar hres] at hp
          simp only [Outcome.returned.injEq] at hp
          obtain ⟨h1, h2, _, h4, h5, h6⟩ := validate_eq_none _ _ _ hp.2
          have h1b : 1 ≤ (populate MAX_REQUESTS f).requests := h1
          have h2b : 1 ≤ (populate MAX_REQUESTS f).concurrency := h2
          have h6b : (populate MAX_REQUESTS f).concurrency ≤ (populate MAX_REQUESTS f).requests :=
            h6
          rw [populate_requests] at h1b h6b
          rw [populate_concurrency] at h2b h6b
          exact ⟨u, rfl, ⟨_, hres⟩, h1b, h2b, h6b, h4, h5⟩
    · rintro ⟨u, hpar, ⟨⟨host, port⟩, hres⟩, h1, h2, h3, h4, h5⟩
      refine ⟨some { populate MAX_REQUESTS f with host := host, port := port }, ?_⟩
      rw [loadConfig_checked parse MAX_REQUESTS f u host port hh hpar hres, validate_none_eq]
      rw [← populate_requests MAX_REQUESTS f] at h1 h3
      rw [← populate_concurrency MAX_REQUESTS f] at h2 h3
      dsimp only
      rw [if_neg (by omega), if_neg (by omega)]
  · rintro u ⟨host, port⟩ hpar hres h1 h2 h3 h4
    refine ⟨some { populate MAX_REQUESTS f with host := host, port := port }, ?_⟩
    rw [loadConfig_checked parse MAX_REQUESTS f u host port hh hpar hres, validate_none_eq]
    rw [← populate_requests MAX_REQUESTS f] at h1 h3
    rw [← populate_concurrency MAX_REQUESTS f] at h2 h3
    dsimp only
    rw [if_neg (by omega), if_pos (by omega)]

theorem loadConfig_nil_error_iff_witness :
    noProcsFlags.help = false
    ∧ (((∃ p, loadConfig parseSample 50000 noProcsFlags = Outcome.returned p none)
        ↔ ∃ u, parseSample noProcsFlags.lastArg = Except.ok u
            ∧ (∃ r, extractHostAndPort u = Except.ok r)
            ∧ 1 ≤ (if 0 < noProcsFlags.timelimit ∧ noProcsFlags.request = 1 then 50000
                   else noProcsFlags.request)
            ∧ 1 ≤ noProcsFlags.concurrency
            ∧ noProcsFlags.concurrency
                ≤ (if 0 < noProcsFlags.timelimit ∧ noProcsFlags.request = 1 then 50000
                   else noProcsFlags.request)
            ∧ 1 ≤ noProcsFlags.GoMaxProcs ∧ 0 ≤ noProcsFlags.Verbosity)
      ∧ (∀ u r, parseSample noProcsFlags.lastArg = Except.ok u →
          extractHostAndPort u = Except.ok r →
          1 ≤ (if 0 < noProcsFlags.timelimit ∧ noProcsFlags.request = 1 then 50000
               else noProcsFlags.request) →
          1 ≤ noProcsFlags.concurrency →
          noProcsFlags.concurrency
            ≤ (if 0 < noProcsFlags.timelimit ∧ noProcsFlags.request = 1 then 50000
               else noProcsFlags.request) →
          (noProcsFlags.GoMaxProcs < 1 ∨ noProcsFlags.Verbosity < 0) →
          ∃ p, loadConfig parseSample 50000 noProcsFlags
            = Outcome.returned p (some "wrong number of arguments"))) :=
  ⟨by decide, loadConfig_nil_error_iff parseSample 50000 noProcsFlags (by decide)⟩

end GoHttpBench
